import Mathlib

/-!
Verification of the pivot oracle in pkg/pivot/pivot.go (Pivoted Query
Synthesis).  The functions of the source file are embedded shallowly:
pure computations become Lean functions, Go runtime panics become
Option.none / a dedicated outcome constructor, and the nondeterministic
database collaborator becomes an explicit oracle parameter.
-/

set_option autoImplicit false

namespace WreckIt

/-- Modelled from the spec: connection.QueryItem (declared outside the
visible source; spec section 3 calls it QueryCell).  The fields used by
pivot.go are ValType.Name() (the value-type name), ValString and Null. -/
structure QueryItem where
  valTypeName : String
  valString : String
  null : Bool
deriving DecidableEq

/-- Modelled from the spec: the TableColumn key type (declared outside the
visible source).  pivot.go builds it as TableColumn with the table
identifier and a discriminant string, and reads fields Table and Name. -/
structure TableColumn where
  table : String
  name : String
deriving DecidableEq

/-- Modelled from the spec: the Table value of the schema snapshot
(declared outside the visible source).  pivot.go populates Name, Columns
and Indexes; only Name is consulted by the pivot selector. -/
structure Table where
  name : String
  columns : List String
  indexes : List String
deriving DecidableEq

/-- compareQueryItem, pivot.go lines 279-288: unequal value-type names or
unequal null flags give false; otherwise the cells are equal when both
are null or the string representations coincide. -/
def compareQueryItem (left right : QueryItem) : Bool :=
  if left.valTypeName ≠ right.valTypeName then false
  else if left.null ≠ right.null then false
  else (left.null && right.null) || (left.valString == right.valString)

/-- Follows the spec's words (section 3): two cells are equal iff their
type identifiers match and (both are null or their string representations
match exactly).  Stated for comparison against compareQueryItem. -/
def specCellEq (left right : QueryItem) : Bool :=
  (left.valTypeName == right.valTypeName)
    && ((left.null && right.null) || (left.valString == right.valString))

/-- A pivot row: Go's map[TableColumn]*connection.QueryItem, embedded as a
function into Option (a missing key reads as none, which is Go's nil). -/
def PivotRow : Type := TableColumn → Option QueryItem

/-- Writing one key of a Go map: the new binding overwrites any earlier one. -/
def mapInsert (m : PivotRow) (k : TableColumn) (v : QueryItem) : PivotRow :=
  fun q => if q = k then some v else m q

/-- The empty map that ChoosePivotedRow starts from (pivot.go line 186). -/
def emptyPivotRow : PivotRow := fun _ => none

/-- checkRow, pivot.go lines 269-277.  The loop walks columns with index i
into resultSet.  Option.none models a runtime panic: resultSet i is
evaluated (inside the Printf) before the comparison, so an index past the
end of the row panics, and a column key absent from originRow yields a nil
pointer that compareQueryItem dereferences.  A mismatched column returns
false at once, skipping the remaining columns. -/
def checkRow (originRow : PivotRow) : List TableColumn → List QueryItem → Option Bool
  | [], _ => some true
  | _ :: _, [] => none
  | c :: cs, x :: xs =>
    match originRow c with
    | none => none
    | some left => if compareQueryItem left x then checkRow originRow cs xs else some false

/-- The row scan of verify, pivot.go lines 252-256: the first row whose
checkRow is true settles the result; a panic inside checkRow propagates. -/
def verifyLoop (originRow : PivotRow) (columns : List TableColumn) :
    List (List QueryItem) → Option Bool
  | [] => some false
  | r :: rest =>
    match checkRow originRow columns r with
    | none => none
    | some true => some true
    | some false => verifyLoop originRow columns rest

/-- The diagnostic dump of verify (pivot.go lines 257-263) indexes
columns j for every cell j of every result row, so it only completes when
no row is longer than the column list. -/
def verifyDumpOk (columns : List TableColumn) (resultSets : List (List QueryItem)) : Bool :=
  resultSets.all (fun r => decide (r.length ≤ columns.length))

/-- verify, pivot.go lines 241-267: scan the rows; on total mismatch run
the diagnostic dump (which may itself panic) and return false. -/
def verify (originRow : PivotRow) (columns : List TableColumn)
    (resultSets : List (List QueryItem)) : Option Bool :=
  match verifyLoop originRow columns resultSets with
  | some true => some true
  | some false => if verifyDumpOk columns resultSets then some false else none
  | none => none

/-- Follows the spec's words (section 4.5): a result row matches when for
every index i into outputColumns, the cell at row i equals, per the cell
equality rule, the pivot row's recorded cell for outputColumns i. -/
def specRowMatches (originRow : PivotRow) (columns : List TableColumn)
    (row : List QueryItem) : Prop :=
  ∀ i, i < columns.length →
    ∃ c cell left, columns[i]? = some c ∧ row[i]? = some cell ∧
      originRow c = some left ∧ compareQueryItem left cell = true

/-- The statement ChoosePivotedRow issues per candidate table
(pivot.go line 196). -/
def selectPivotSQL (t : Table) : String :=
  "SELECT * FROM " ++ t.name ++ " ORDER BY RAND() LIMIT 1;"

/-- Recording the first returned row of one table (pivot.go lines 202-206):
every cell is written under the key built from the table name and the
cell's value-type name; later writes overwrite colliding keys. -/
def recordRowCells (tname : String) (row : List QueryItem) (m : PivotRow) : PivotRow :=
  row.foldl (fun acc c => mapInsert acc ⟨tname, c.valTypeName⟩ c) m

/-- The candidate loop of ChoosePivotedRow (pivot.go lines 195-211).  The
database collaborator is the oracle res: res i is the outcome of the
SELECT issued at iteration i (ORDER BY RAND() makes repeated queries
nondeterministic, hence indexing by iteration).  An execution error panics
(none); a zero-row table contributes nothing and is skipped; otherwise the
first row's cells are recorded and the table appended to reallyUsed. -/
def choosePivotedRowLoop (res : Nat → Except String (List (List QueryItem))) :
    Nat → List Table → PivotRow → List Table → Option (PivotRow × List Table)
  | _, [], m, used => some (m, used)
  | i, t :: ts, m, used =>
    match res i with
    | .error _ => none
    | .ok [] => choosePivotedRowLoop res (i + 1) ts m used
    | .ok (r0 :: _) =>
        choosePivotedRowLoop res (i + 1) ts (recordRowCells t.name r0 m) (used ++ [t])

/-- Modelled from the spec: the helper Rd is defined outside the visible
source.  Section 4.3 states that count = Rd(N-1)+1 is a uniform random
integer in the interval from 1 to N, so Rd n ranges over 0..RdMax n with
RdMax n = n. -/
def RdMax (n : Nat) : Nat := n

/-- The count computation of ChoosePivotedRow (pivot.go lines 187-190):
count stays 1 unless more than one table exists, in which case it is
Rd(numTables-1)+1 with r the Rd outcome. -/
def pivotTableCount (numTables r : Nat) : Nat :=
  if 1 < numTables then r + 1 else 1

/-- ChoosePivotedRow, pivot.go lines 185-212.  The shuffled argument is
the table list after the in-place rand.Shuffle; r is the Rd outcome.  The
Go slice Tables up to count panics when count exceeds the capacity (equal
to the length here), which is the none branch; in particular an empty
table list still yields count 1 and panics. -/
def ChoosePivotedRow (res : Nat → Except String (List (List QueryItem)))
    (shuffled : List Table) (r : Nat) : Option (PivotRow × List Table) :=
  let count := pivotTableCount shuffled.length r
  if count ≤ shuffled.length then
    choosePivotedRowLoop res 0 (shuffled.take count) emptyPivotRow []
  else none

/-- Outcome of one oracle iteration: normal return or a process abort. -/
inductive ProgressOutcome where
  | ok : ProgressOutcome
  | panicked : String → ProgressOutcome
deriving DecidableEq

/-- progress, pivot.go lines 156-182.  Each stage's collaborator result is
a parameter: pivotRes from ChoosePivotedRow, genStmt from GenSelectStmt,
execRes from execSelect.  Every error panics immediately, as does a failed
verification; only a verified true returns normally. -/
def progress (pivotRes : Except String (PivotRow × List Table))
    (genStmt : PivotRow → List Table → Except String (String × List TableColumn))
    (execRes : String → Except String (List (List QueryItem))) : ProgressOutcome :=
  match pivotRes with
  | .error e => .panicked e
  | .ok (pivotRows, usedTables) =>
    match genStmt pivotRows usedTables with
    | .error e => .panicked e
    | .ok (stmt, columns) =>
      match execRes stmt with
      | .error e => .panicked e
      | .ok rows =>
        match verify pivotRows columns rows with
        | some true => .ok
        | some false => .panicked "data verified failed"
        | none => .panicked "runtime panic during verification"

/-- One bootstrap batch of prepare (pivot.go lines 95-101, 111-118): the
i-th generated statement is executed whatever happened to the earlier
ones; a failure is only logged.  The value is the execution trace. -/
def prepareBatch (gen : Nat → String) (exec : String → Except String Unit) (n : Nat) :
    List (String × Except String Unit) :=
  (List.range n).map (fun i => (gen i, exec (gen i)))

/-- prepare, pivot.go lines 93-127: the create-table batch, the
create-index batch, then one insert per table of the reloaded schema.
The function is total: no generated-statement failure aborts it. -/
def prepare (genCreateTable genCreateIndex : Nat → String) (genInsert : String → String)
    (exec : String → Except String Unit) (nTables nIndexes : Nat)
    (tables : List String) : List (String × Except String Unit) :=
  prepareBatch genCreateTable exec nTables
    ++ prepareBatch genCreateIndex exec nIndexes
    ++ tables.map (fun t => (genInsert t, exec (genInsert t)))

/-- Control state of the background worker spawned by kickup
(pivot.go lines 140-153). -/
inductive WorkerState where
  | outerCheck : WorkerState
  | innerLoop : WorkerState
  | retired : WorkerState
  | aborted : WorkerState
deriving DecidableEq

/-- One step of the kickup worker.  At outerCheck the select statement
reads the cancellation signal: done means return, otherwise the default
branch enters the inner loop.  Inside the inner loop progress runs with no
cancellation check: a normal iteration stays in the inner loop forever and
only a panic leaves it, aborting the process. -/
def workerStep : WorkerState → Bool → ProgressOutcome → WorkerState
  | .outerCheck, true, _ => .retired
  | .outerCheck, false, _ => .innerLoop
  | .innerLoop, _, .ok => .innerLoop
  | .innerLoop, _, .panicked _ => .aborted
  | .retired, _, _ => .retired
  | .aborted, _, _ => .aborted

/-- C2, counterexample: a null and a non-null cell of the same type with
identical string representations.  The spec's equality formula accepts the
pair while compareQueryItem rejects it. -/
theorem compareQueryItem_spec_formula_counterexample :
    compareQueryItem ⟨"int", "1", true⟩ ⟨"int", "1", false⟩ = false ∧
      specCellEq ⟨"int", "1", true⟩ ⟨"int", "1", false⟩ = true := by
  exact ⟨by decide, by decide⟩

/-- C2, amended: compareQueryItem deems two cells equal iff their
value-type names match, their null flags agree, and either both are null
or their string representations match exactly; in particular cells with
different value-type names never compare equal. -/
theorem compareQueryItem_characterization :
    (∀ left right : QueryItem, compareQueryItem left right = true ↔
      (left.valTypeName = right.valTypeName ∧ left.null = right.null ∧
        (left.null = true ∨ left.valString = right.valString)))
    ∧ ∀ left right : QueryItem, left.valTypeName ≠ right.valTypeName →
        compareQueryItem left right = false := by
  constructor
  · intro l r
    unfold compareQueryItem
    by_cases h1 : l.valTypeName = r.valTypeName <;>
      by_cases h2 : l.null = r.null <;>
        cases hl : l.null <;> simp_all
  · intro l r h
    simp [compareQueryItem, h]

/-- Witness for the amended C2 at concrete cells. -/
theorem compareQueryItem_characterization_witness :
    compareQueryItem ⟨"int", "1", false⟩ ⟨"varchar", "1", false⟩ = false ∧
      compareQueryItem ⟨"int", "7", false⟩ ⟨"int", "7", false⟩ = true :=
  ⟨compareQueryItem_characterization.2 ⟨"int", "1", false⟩ ⟨"varchar", "1", false⟩
      (by decide),
    (compareQueryItem_characterization.1 ⟨"int", "7", false⟩ ⟨"int", "7", false⟩).mpr
      ⟨rfl, rfl, Or.inr rfl⟩⟩

/-- C3: with matching type identifiers, two null cells compare equal
whatever their stored strings, and a null cell never equals a non-null
cell of the same type, even with identical strings. -/
theorem compareQueryItem_null_rules :
    (∀ left right : QueryItem, left.valTypeName = right.valTypeName →
      left.null = true → right.null = true → compareQueryItem left right = true)
    ∧ ∀ left right : QueryItem, left.valTypeName = right.valTypeName →
        left.null ≠ right.null → compareQueryItem left right = false := by
  constructor
  · intro l r h1 h2 h3
    simp [compareQueryItem, h1, h2, h3]
  · intro l r h1 h2
    simp [compareQueryItem, h1, h2]

/-- Witness for C3: equal nulls with different strings, then a null
against a non-null with the same string. -/
theorem compareQueryItem_null_rules_witness :
    compareQueryItem ⟨"int", "a", true⟩ ⟨"int", "b", true⟩ = true ∧
      compareQueryItem ⟨"int", "0", true⟩ ⟨"int", "0", false⟩ = false :=
  ⟨compareQueryItem_null_rules.1 ⟨"int", "a", true⟩ ⟨"int", "b", true⟩ rfl rfl rfl,
    compareQueryItem_null_rules.2 ⟨"int", "0", true⟩ ⟨"int", "0", false⟩ rfl (by decide)⟩

/-- C4: with at least one table and an Rd outcome in range, the candidate
count lies between 1 and the number of tables, and is exactly 1 when only
one table exists. -/
theorem pivotTableCount_bounds (n r : Nat) (hn : 1 ≤ n) (hr : r ≤ RdMax (n - 1)) :
    1 ≤ pivotTableCount n r ∧ pivotTableCount n r ≤ n ∧
      (n = 1 → pivotTableCount n r = 1) := by
  unfold pivotTableCount RdMax at *
  split <;> omega

/-- Witness for C4 at three tables and Rd outcome 2. -/
theorem pivotTableCount_bounds_witness :
    1 ≤ pivotTableCount 3 2 ∧ pivotTableCount 3 2 ≤ 3 ∧
      (3 = 1 → pivotTableCount 3 2 = 1) :=
  pivotTableCount_bounds 3 2 (by decide) (by decide)

/-- Under the alignment precondition checkRow cannot panic. -/
theorem checkRow_isSome (orow : PivotRow) :
    ∀ (cols : List TableColumn) (rs : List QueryItem),
      cols.length ≤ rs.length → (∀ c ∈ cols, (orow c).isSome) →
      (checkRow orow cols rs).isSome := by
  intro cols
  induction cols with
  | nil => intro rs _ _; simp [checkRow]
  | cons c cs ih =>
    intro rs hlen hk
    cases rs with
    | nil => simp at hlen
    | cons x xs =>
      rcases ho : orow c with _ | left
      · have hc := hk c (by simp)
        simp [ho] at hc
      · simp only [checkRow, ho]
        by_cases hcmp : compareQueryItem left x = true
        · simpa [hcmp] using
            ih xs (by simpa using hlen) (fun c2 h2 => hk c2 (by simp [h2]))
        · simp [hcmp]

/-- Unfolding of the spec's row-match predicate over a leading column. -/
theorem specRowMatches_cons (orow : PivotRow) (c : TableColumn)
    (cs : List TableColumn) (x : QueryItem) (xs : List QueryItem) :
    specRowMatches orow (c :: cs) (x :: xs) ↔
      ((∃ left, orow c = some left ∧ compareQueryItem left x = true) ∧
        specRowMatches orow cs xs) := by
  unfold specRowMatches
  constructor
  · intro h
    constructor
    · obtain ⟨c0, cell, l, hc0, hcell, hl, hcmp⟩ := h 0 (by simp)
      simp only [List.getElem?_cons_zero, Option.some.injEq] at hc0 hcell
      subst hc0; subst hcell
      exact ⟨l, hl, hcmp⟩
    · intro i hi
      obtain ⟨c0, cell, l, hc0, hcell, hl, hcmp⟩ :=
        h (i + 1) (by simpa using Nat.succ_lt_succ hi)
      exact ⟨c0, cell, l, by simpa using hc0, by simpa using hcell, hl, hcmp⟩
  · rintro ⟨⟨l, hl, hcmp⟩, hrest⟩ i hi
    cases i with
    | zero => exact ⟨c, x, l, by simp, by simp, hl, hcmp⟩
    | succ j =>
      obtain ⟨c0, cell, l2, hc0, hcell, hl2, hcmp2⟩ := hrest j (by simpa using hi)
      exact ⟨c0, cell, l2, by simpa using hc0, by simpa using hcell, hl2, hcmp2⟩

/-- checkRow returns true exactly on the rows the spec calls matching. -/
theorem checkRow_eq_true_iff (orow : PivotRow) :
    ∀ (cols : List TableColumn) (rs : List QueryItem),
      checkRow orow cols rs = some true ↔ specRowMatches orow cols rs := by
  intro cols
  induction cols with
  | nil =>
    intro rs
    simp [checkRow, specRowMatches]
  | cons c cs ih =>
    intro rs
    cases rs with
    | nil =>
      simp only [checkRow]
      constructor
      · intro h; cases h
      · intro h
        obtain ⟨c0, cell, l, hc0, hcell, _, _⟩ := h 0 (by simp)
        simp at hcell
    | cons x xs =>
      rw [specRowMatches_cons]
      rcases ho : orow c with _ | left
      · simp only [checkRow, ho]
        constructor
        · intro h; cases h
        · rintro ⟨⟨l, hl, _⟩, _⟩
          simp at hl
      · simp only [checkRow, ho]
        by_cases hcmp : compareQueryItem left x = true
        · rw [if_pos hcmp, ih xs]
          constructor
          · intro h; exact ⟨⟨left, rfl, hcmp⟩, h⟩
          · rintro ⟨_, h⟩; exact h
        · rw [if_neg hcmp]
          constructor
          · intro h; simp at h
          · rintro ⟨⟨l, hl, hcmp2⟩, _⟩
            rw [Option.some.injEq] at hl
            subst hl
            exact absurd hcmp2 hcmp

/-- A mismatch ends the row check at once: whatever columns and cells
follow the first mismatching column, checkRow returns false. -/
theorem checkRow_shortcircuit (orow : PivotRow) :
    ∀ (cols1 : List TableColumn) (rs1 : List QueryItem) (c : TableColumn)
      (cols2 : List TableColumn) (x : QueryItem) (rs2 : List QueryItem)
      (left : QueryItem),
      rs1.length = cols1.length → checkRow orow cols1 rs1 = some true →
      orow c = some left → compareQueryItem left x = false →
      checkRow orow (cols1 ++ c :: cols2) (rs1 ++ x :: rs2) = some false := by
  intro cols1
  induction cols1 with
  | nil =>
    intro rs1 c cols2 x rs2 left hlen _ hc hcmp
    have hnil : rs1 = [] := List.eq_nil_of_length_eq_zero hlen
    subst hnil
    simp [checkRow, hc, hcmp]
  | cons c1 cs1 ih =>
    intro rs1 c cols2 x rs2 left hlen htrue hc hcmp
    cases rs1 with
    | nil => simp [checkRow] at htrue
    | cons y ys =>
      rcases ho : orow c1 with _ | l1
      · simp only [checkRow, ho] at htrue
        exact Option.noConfusion htrue
      · simp only [checkRow, ho] at htrue
        by_cases hcmp1 : compareQueryItem l1 y = true
        · rw [if_pos hcmp1] at htrue
          simp only [List.cons_append, checkRow, ho]
          rw [if_pos hcmp1]
          exact ih ys c cols2 x rs2 left (by simpa using hlen) htrue hc hcmp
        · rw [if_neg hcmp1] at htrue
          simp at htrue

/-- The row scan returns true exactly when some row checks true, provided
no row panics. -/
theorem verifyLoop_true_iff (orow : PivotRow) (cols : List TableColumn) :
    ∀ rows : List (List QueryItem),
      (∀ r ∈ rows, (checkRow orow cols r).isSome) →
      (verifyLoop orow cols rows = some true ↔
        ∃ r ∈ rows, checkRow orow cols r = some true) := by
  intro rows
  induction rows with
  | nil => intro _; simp [verifyLoop]
  | cons r rest ih =>
    intro h
    rcases hr : checkRow orow cols r with _ | b
    · have hs := h r (by simp)
      simp [hr] at hs
    · cases b with
      | true =>
        simp only [verifyLoop, hr]
        exact ⟨fun _ => ⟨r, by simp, hr⟩, fun _ => trivial⟩
      | false =>
        simp only [verifyLoop, hr]
        rw [ih (fun r2 h2 => h r2 (by simp [h2]))]
        constructor
        · rintro ⟨r2, h2, h3⟩; exact ⟨r2, by simp [h2], h3⟩
        · rintro ⟨r2, h2, h3⟩
          rcases List.mem_cons.mp h2 with h4 | h4
          · subst h4; rw [hr] at h3; simp at h3
          · exact ⟨r2, h4, h3⟩

/-- verify returns true exactly when its row scan does; the diagnostic
dump only runs on the all-mismatch path. -/
theorem verify_true_iff_loop (orow : PivotRow) (cols : List TableColumn)
    (rows : List (List QueryItem)) :
    verify orow cols rows = some true ↔ verifyLoop orow cols rows = some true := by
  unfold verify
  split
  · simp_all
  · rename_i heq
    rw [heq]
    constructor
    · intro h
      split at h <;> simp_all
    · intro h
      simp at h
  · simp_all

/-- C1: with every output column present in the pivot row and every result
row at least as long as the column list, verify returns true exactly when
some result row matches the pivot row columnwise, and a row check returns
false at the first mismatched column whatever follows it. -/
theorem verify_true_iff_matching_row (orow : PivotRow) (cols : List TableColumn)
    (rows : List (List QueryItem))
    (halign : ∀ r ∈ rows, cols.length ≤ r.length)
    (hkeys : ∀ c ∈ cols, (orow c).isSome) :
    (verify orow cols rows = some true ↔ ∃ r ∈ rows, specRowMatches orow cols r)
    ∧ (∀ (orow2 : PivotRow) (cols1 : List TableColumn) (rs1 : List QueryItem)
        (c : TableColumn) (cols2 : List TableColumn) (x : QueryItem)
        (rs2 : List QueryItem) (left : QueryItem),
        rs1.length = cols1.length → checkRow orow2 cols1 rs1 = some true →
        orow2 c = some left → compareQueryItem left x = false →
        checkRow orow2 (cols1 ++ c :: cols2) (rs1 ++ x :: rs2) = some false) := by
  constructor
  · rw [verify_true_iff_loop,
      verifyLoop_true_iff orow cols rows
        (fun r hr => checkRow_isSome orow cols r (halign r hr) hkeys)]
    constructor
    · rintro ⟨r, h1, h2⟩; exact ⟨r, h1, (checkRow_eq_true_iff orow cols r).mp h2⟩
    · rintro ⟨r, h1, h2⟩; exact ⟨r, h1, (checkRow_eq_true_iff orow cols r).mpr h2⟩
  · exact fun orow2 => checkRow_shortcircuit orow2

/-- Witness for C1: a singleton pivot row found in a singleton result. -/
theorem verify_true_iff_matching_row_witness :
    verify (fun c => if c = ⟨"t", "int"⟩ then some ⟨"int", "1", false⟩ else none)
      [⟨"t", "int"⟩] [[⟨"int", "1", false⟩]] = some true := by
  refine (verify_true_iff_matching_row
      (fun c => if c = ⟨"t", "int"⟩ then some ⟨"int", "1", false⟩ else none)
      [⟨"t", "int"⟩] [[⟨"int", "1", false⟩]] ?_ ?_).1.mpr ?_
  · intro r hr
    simp only [List.mem_singleton] at hr
    subst hr; simp
  · intro c hc
    simp only [List.mem_singleton] at hc
    subst hc; simp
  · refine ⟨[⟨"int", "1", false⟩], by simp, ?_⟩
    intro i hi
    simp only [List.length_singleton] at hi
    interval_cases i
    exact ⟨⟨"t", "int"⟩, ⟨"int", "1", false⟩, ⟨"int", "1", false⟩, rfl, rfl,
      by simp, by decide⟩

/-- C9: checkRow is total under the alignment precondition; it panics
(none), not false, when a column's key is absent from the pivot row or the
result row is shorter than the column list. -/
theorem checkRow_totality_requires_alignment :
    (∀ (orow : PivotRow) (cols : List TableColumn) (rs : List QueryItem),
      cols.length ≤ rs.length → (∀ c ∈ cols, (orow c).isSome) →
      (checkRow orow cols rs).isSome)
    ∧ (∀ (orow : PivotRow) (c : TableColumn) (cs : List TableColumn)
        (x : QueryItem) (xs : List QueryItem),
        orow c = none → checkRow orow (c :: cs) (x :: xs) = none)
    ∧ (∀ (orow : PivotRow) (c : TableColumn) (cs : List TableColumn),
        checkRow orow (c :: cs) [] = none) := by
  refine ⟨checkRow_isSome, ?_, ?_⟩
  · intro orow c cs x xs h
    simp [checkRow, h]
  · intro orow c cs
    rfl

/-- Witness for C9: totality on an aligned pair, a missing key, and a row
one cell short. -/
theorem checkRow_totality_requires_alignment_witness :
    (checkRow (fun _ => some ⟨"int", "1", false⟩)
        [⟨"t", "int"⟩] [⟨"int", "2", false⟩]).isSome ∧
      checkRow (fun _ => none) [⟨"t", "int"⟩] [⟨"int", "2", false⟩] = none ∧
      checkRow (fun _ => some ⟨"int", "1", false⟩) [⟨"t", "int"⟩] [] = none :=
  ⟨checkRow_totality_requires_alignment.1 (fun _ => some ⟨"int", "1", false⟩)
      [⟨"t", "int"⟩] [⟨"int", "2", false⟩] (by decide) (fun c hc => rfl),
    checkRow_totality_requires_alignment.2.1 (fun _ => none) ⟨"t", "int"⟩ []
      ⟨"int", "2", false⟩ [] rfl,
    checkRow_totality_requires_alignment.2.2 (fun _ => some ⟨"int", "1", false⟩)
      ⟨"t", "int"⟩ []⟩

/-- The selection loop succeeds when every issued query succeeds, and a
table all of whose query outcomes are empty never reaches reallyUsed. -/
theorem choosePivotedRowLoop_total_excl
    (res : Nat → Except String (List (List QueryItem))) (t : Table) :
    ∀ (ts : List Table) (i : Nat) (m : PivotRow) (used : List Table),
      (∀ j, j < ts.length → ∃ v, res (i + j) = Except.ok v) →
      (∀ j (hj : j < ts.length), ts[j] = t → res (i + j) = Except.ok []) →
      t ∉ used →
      ∃ m2 used2, choosePivotedRowLoop res i ts m used = some (m2, used2) ∧
        t ∉ used2 := by
  intro ts
  induction ts with
  | nil =>
    intro i m used _ _ hu
    exact ⟨m, used, rfl, hu⟩
  | cons t1 ts1 ih =>
    intro i m used hok hempty hu
    obtain ⟨v, hv⟩ := hok 0 (by simp)
    rw [Nat.add_zero] at hv
    have hshiftok : ∀ j, j < ts1.length → ∃ w, res (i + 1 + j) = Except.ok w := by
      intro j hj
      have := hok (j + 1) (by simpa using Nat.succ_lt_succ hj)
      rwa [show i + (j + 1) = i + 1 + j by omega] at this
    have hshiftempty : ∀ j (hj : j < ts1.length), ts1[j] = t →
        res (i + 1 + j) = Except.ok [] := by
      intro j hj hjt
      have := hempty (j + 1) (by simpa using Nat.succ_lt_succ hj) (by simpa using hjt)
      rwa [show i + (j + 1) = i + 1 + j by omega] at this
    cases v with
    | nil =>
      simp only [choosePivotedRowLoop, hv]
      exact ih (i + 1) m used hshiftok hshiftempty hu
    | cons r0 rest =>
      have ht1 : t1 ≠ t := by
        intro h
        have := hempty 0 (by simp) (by simpa using h)
        rw [Nat.add_zero, hv] at this
        simp at this
      simp only [choosePivotedRowLoop, hv]
      refine ih (i + 1) (recordRowCells t1.name r0 m) (used ++ [t1]) hshiftok hshiftempty ?_
      intro hmem
      rcases List.mem_append.mp hmem with h4 | h4
      · exact hu h4
      · simp at h4
        exact ht1 h4.symm

/-- C5: when every candidate query succeeds, the selection loop returns a
result, and a table whose query returns zero rows never enters the
really-used list. -/
theorem choosePivotedRow_excludes_empty_tables
    (res : Nat → Except String (List (List QueryItem))) (tables : List Table)
    (t : Table)
    (hok : ∀ j, j < tables.length → ∃ v, res j = Except.ok v)
    (hempty : ∀ j (hj : j < tables.length), tables[j] = t → res j = Except.ok []) :
    ∃ m used, choosePivotedRowLoop res 0 tables emptyPivotRow [] = some (m, used) ∧
      t ∉ used := by
  refine choosePivotedRowLoop_total_excl res t tables 0 emptyPivotRow []
    (fun j hj => by simpa using hok j hj)
    (fun j hj hjt => by simpa using hempty j hj hjt)
    (by simp)

/-- Witness for C5: one empty table and one populated table. -/
theorem choosePivotedRow_excludes_empty_tables_witness :
    ∃ m used,
      choosePivotedRowLoop
        (fun i => if i = 0 then Except.ok [] else Except.ok [[⟨"int", "1", false⟩]])
        0 [⟨"e", [], []⟩, ⟨"n", [], []⟩] emptyPivotRow [] = some (m, used) ∧
      (⟨"e", [], []⟩ : Table) ∉ used := by
  refine choosePivotedRow_excludes_empty_tables _ _ _ ?_ ?_
  · intro j hj
    simp only [List.length_cons, List.length_nil] at hj
    interval_cases j
    · exact ⟨[], rfl⟩
    · exact ⟨[[⟨"int", "1", false⟩]], rfl⟩
  · intro j hj hjt
    simp only [List.length_cons, List.length_nil] at hj
    interval_cases j
    · rfl
    · simp only [List.getElem_cons_succ, List.getElem_cons_zero] at hjt
      exact absurd hjt (by decide)

/-- C6: two tables processed in order whose recorded cells share a
TableColumn key leave the later table's cell in the returned mapping. -/
theorem choosePivotedRow_last_writer_wins (t1 t2 : Table) (c1 c2 : QueryItem)
    (res : Nat → Except String (List (List QueryItem)))
    (h0 : res 0 = Except.ok [[c1]]) (h1 : res 1 = Except.ok [[c2]])
    (hname : t1.name = t2.name) (htype : c1.valTypeName = c2.valTypeName) :
    ∃ m, choosePivotedRowLoop res 0 [t1, t2] emptyPivotRow [] =
        some (m, [t1, t2]) ∧
      m ⟨t1.name, c1.valTypeName⟩ = some c2 := by
  refine ⟨mapInsert (mapInsert emptyPivotRow ⟨t1.name, c1.valTypeName⟩ c1)
      ⟨t2.name, c2.valTypeName⟩ c2, ?_, ?_⟩
  · simp only [choosePivotedRowLoop, h0, h1, recordRowCells, List.foldl,
      List.nil_append, List.cons_append]
  · unfold mapInsert
    rw [if_pos (by rw [hname, htype])]

/-- Witness for C6: both tables named t, colliding on the int key; the
second table's cell (string value 2) survives. -/
theorem choosePivotedRow_last_writer_wins_witness :
    ∃ m, choosePivotedRowLoop
        (fun i => if i = 0 then Except.ok [[⟨"int", "1", false⟩]]
          else Except.ok [[⟨"int", "2", false⟩]])
        0 [⟨"t", [], []⟩, ⟨"t", [], []⟩] emptyPivotRow [] =
        some (m, [⟨"t", [], []⟩, ⟨"t", [], []⟩]) ∧
      m ⟨"t", "int"⟩ = some ⟨"int", "2", false⟩ := by
  exact choosePivotedRow_last_writer_wins ⟨"t", [], []⟩ ⟨"t", [], []⟩
    ⟨"int", "1", false⟩ ⟨"int", "2", false⟩ _ rfl rfl rfl rfl

/-- C10: with an empty table list the count is still 1 and
ChoosePivotedRow panics on the out-of-range slice instead of returning an
empty pivot row and used-table list. -/
theorem choosePivotedRow_empty_tables_panics
    (res : Nat → Except String (List (List QueryItem))) (r : Nat) :
    pivotTableCount 0 r = 1 ∧ ChoosePivotedRow res [] r = none := by
  constructor
  · rfl
  · simp [ChoosePivotedRow, pivotTableCount]

/-- C7: bootstrap executes every statement of a batch regardless of
earlier failures, while an iteration panics on a pivot-selection error, a
synthesis error, an execution error, or any verification that is not
true. -/
theorem bootstrap_skips_iteration_panics
    (gen : Nat → String) (exec : String → Except String Unit) (n : Nat)
    (genStmt : PivotRow → List Table → Except String (String × List TableColumn))
    (execRes : String → Except String (List (List QueryItem)))
    (pr : PivotRow) (ut : List Table) (stmt : String) (cols : List TableColumn) :
    ((prepareBatch gen exec n).length = n ∧
      ∀ i, i < n → (prepareBatch gen exec n)[i]? = some (gen i, exec (gen i)))
    ∧ (∀ e, progress (Except.error e) genStmt execRes = ProgressOutcome.panicked e)
    ∧ (∀ e, genStmt pr ut = Except.error e →
        progress (Except.ok (pr, ut)) genStmt execRes = ProgressOutcome.panicked e)
    ∧ (∀ e, genStmt pr ut = Except.ok (stmt, cols) → execRes stmt = Except.error e →
        progress (Except.ok (pr, ut)) genStmt execRes = ProgressOutcome.panicked e)
    ∧ (∀ rows, genStmt pr ut = Except.ok (stmt, cols) →
        execRes stmt = Except.ok rows → verify pr cols rows ≠ some true →
        ∃ msg, progress (Except.ok (pr, ut)) genStmt execRes =
          ProgressOutcome.panicked msg) := by
  refine ⟨⟨by simp [prepareBatch], ?_⟩, ?_, ?_, ?_, ?_⟩
  · intro i hi
    simp [prepareBatch, List.getElem?_map, List.getElem?_range, hi]
  · intro e; rfl
  · intro e h
    simp [progress, h]
  · intro e h1 h2
    simp [progress, h1, h2]
  · intro rows h1 h2 h3
    simp only [progress, h1, h2]
    rcases hv : verify pr cols rows with _ | b
    · exact ⟨"runtime panic during verification", rfl⟩
    · cases b
      · exact ⟨"data verified failed", rfl⟩
      · exact absurd hv h3

/-- Witness for C7: a two-statement bootstrap batch whose executions both
fail still has length two, and an iteration whose synthesis stage fails
panics with that error. -/
theorem bootstrap_skips_iteration_panics_witness :
    (prepareBatch (fun _ => "create table t0 (a int)")
        (fun _ => Except.error "fail") 2).length = 2 ∧
      progress (Except.ok (emptyPivotRow, []))
        (fun _ _ => Except.error "boom")
        (fun _ => Except.error "unused") = ProgressOutcome.panicked "boom" := by
  have h := bootstrap_skips_iteration_panics (fun _ => "create table t0 (a int)")
    (fun _ => Except.error "fail") 2 (fun _ _ => Except.error "boom")
    (fun _ => Except.error "unused") emptyPivotRow [] "" []
  exact ⟨h.1.1, h.2.2.1 "boom" rfl⟩

/-- C8: the worker observes the cancellation signal only at the outer
boundary; the inner-loop step ignores the cancellation flag entirely,
stays in the inner loop after a normal iteration, and leaves it only by
aborting on a panicked iteration. -/
theorem worker_cancellation_outer_only :
    (∀ r : ProgressOutcome,
      workerStep WorkerState.outerCheck true r = WorkerState.retired)
    ∧ (∀ r : ProgressOutcome,
        workerStep WorkerState.outerCheck false r = WorkerState.innerLoop)
    ∧ (∀ (cancelled1 cancelled2 : Bool) (r : ProgressOutcome),
        workerStep WorkerState.innerLoop cancelled1 r =
          workerStep WorkerState.innerLoop cancelled2 r)
    ∧ (∀ cancelled : Bool,
        workerStep WorkerState.innerLoop cancelled ProgressOutcome.ok =
          WorkerState.innerLoop)
    ∧ (∀ (cancelled : Bool) (e : String),
        workerStep WorkerState.innerLoop cancelled (ProgressOutcome.panicked e) =
          WorkerState.aborted) := by
  refine ⟨?_, ?_, ?_, ?_, ?_⟩
  · intro r; cases r <;> rfl
  · intro r; cases r <;> rfl
  · intro c1 c2 r; cases c1 <;> cases c2 <;> cases r <;> rfl
  · intro c; cases c <;> rfl
  · intro c e; cases c <;> rfl

end WreckIt
